import Mathlib

/-!
Verification development for the crudadmin session storage layer
(`crudadmin/session/storage.py`).

The file shallowly embeds the data model and the factory logic of the
session-storage module: the configuration bag (`**kwargs`) becomes an
association list of string keys to Python-like values, the concrete
backend drivers become constructors of an inductive `Store` type carrying
exactly the keyword arguments their constructors receive, and
`get_session_storage` becomes a total function into `Except String Store`
(an `Except.error` models a raised `ValueError` with that message).
-/

namespace CrudAdmin

/-- A Python value as it can appear in the configuration bag: `Value.none`
is Python's `None`, `obj` stands for any other Python object (such as a
`DatabaseConfig` instance), which is truthy by default. -/
inductive Value where
  | none
  | bool (b : Bool)
  | int (n : Int)
  | str (s : String)
  | obj (tag : Nat)
deriving DecidableEq, Repr

/-- Python truthiness of a `Value` (what `if not db_config` tests). -/
def Value.truthy : Value → Bool
  | .none => false
  | .bool b => b
  | .int n => n != 0
  | .str s => s != ""
  | .obj _ => true

/-- Python equality of a `Value` against a string literal: only a string
value can compare equal to a string. -/
def Value.eqStr : Value → String → Bool
  | .str s, t => s == t
  | _, _ => false

/-- The `**kwargs` configuration bag: an insertion-ordered dictionary,
modelled as an association list (Python dicts have unique keys). -/
abbrev Kwargs := List (String × Value)

/-- Dictionary lookup: value of the first entry with the given key. -/
def lookupKey : Kwargs → String → Option Value
  | [], _ => Option.none
  | (k, v) :: rest, key => if k == key then some v else lookupKey rest key

/-- Python's `key in kwargs`. -/
def hasKey (kw : Kwargs) (key : String) : Bool :=
  (lookupKey kw key).isSome

/-- The removal effect of Python's `kwargs.pop(key, default)`: drops the
first (for a dict: the only) entry with the given key. -/
def eraseKey : Kwargs → String → Kwargs
  | [], _ => []
  | (k, v) :: rest, key => if k == key then rest else (k, v) :: eraseKey rest key

/-- The dict comprehension `{k: v for k, v in kwargs.items() if k in allowed}`. -/
def filterKeys (allowed : List String) (kw : Kwargs) : Kwargs :=
  kw.filter (fun kv => allowed.contains kv.1)

/-- The kwargs allow-list of `RedisSessionStorage` (storage.py lines 178-193). -/
def redisAllowedKeys : List String :=
  ["prefix", "expiration", "host", "port", "db", "username", "password",
   "pool_size", "connect_timeout"]

/-- The kwargs allow-list of `MemcachedSessionStorage` (lines 200-204). -/
def memcachedAllowedKeys : List String :=
  ["prefix", "expiration", "host", "port", "pool_size"]

/-- The kwargs allow-list of `MemorySessionStorage` (lines 211-213). -/
def memoryAllowedKeys : List String :=
  ["prefix", "expiration"]

/-- The kwargs allow-list of `DatabaseSessionStorage` (lines 220-224). -/
def databaseAllowedKeys : List String :=
  ["prefix", "expiration", "db_config"]

/-- The cache tier constructed inside the hybrid branch: either a
`RedisSessionStorage` or a `MemcachedSessionStorage`, carrying the keyword
arguments passed to its constructor. -/
inductive CacheTier where
  | redis (kwargs : Kwargs)
  | memcached (kwargs : Kwargs)
deriving DecidableEq, Repr

/-- A constructed session store: one constructor per concrete driver class,
carrying the keyword arguments passed to that constructor.  `hybrid` records
the cache tier, the kwargs of its `DatabaseSessionStorage`, and the kwargs
passed to `HybridSessionStorage` itself. -/
inductive Store where
  | redis (kwargs : Kwargs)
  | memcached (kwargs : Kwargs)
  | memory (kwargs : Kwargs)
  | database (kwargs : Kwargs)
  | hybrid (cache : CacheTier) (databaseKwargs : Kwargs) (hybridKwargs : Kwargs)
deriving DecidableEq, Repr

/-- The `backend == "hybrid"` branch of `get_session_storage`
(storage.py lines 227-292): pop `db_config` and fail if it is falsy;
decide the cache tier from the redis-specific keys and `_cache_backend`
(popped only when the `or` does not short-circuit); build the cache tier,
the database tier (with `db_config` put back), and the hybrid store. -/
def hybridBranch (kwargs : Kwargs) : Except String Store :=
  let db_config := (lookupKey kwargs "db_config").getD Value.none
  let kwargs1 := eraseKey kwargs "db_config"
  if !db_config.truthy then
    .error "db_config is required for hybrid backend"
  else
    let has_redis_params := ["db", "username", "password"].any (fun p => hasKey kwargs1 p)
    let use_redis := has_redis_params ||
      ((lookupKey kwargs1 "_cache_backend").getD (Value.str "redis")).eqStr "redis"
    let kwargs2 := if has_redis_params then kwargs1 else eraseKey kwargs1 "_cache_backend"
    let cache_storage : CacheTier :=
      if use_redis then CacheTier.redis (filterKeys redisAllowedKeys kwargs2)
      else CacheTier.memcached (filterKeys memcachedAllowedKeys kwargs2)
    let database_kwargs := filterKeys ["prefix", "expiration"] kwargs2 ++ [("db_config", db_config)]
    let hybrid_kwargs := filterKeys ["prefix", "expiration"] kwargs2
    .ok (Store.hybrid cache_storage database_kwargs hybrid_kwargs)

/-- `get_session_storage` (storage.py lines 161-294): dispatch on the
backend name, filter the configuration bag per driver, raise `ValueError`
for an unknown backend. -/
def get_session_storage (backend : String) (kwargs : Kwargs) : Except String Store :=
  if backend == "redis" then
    .ok (Store.redis (filterKeys redisAllowedKeys kwargs))
  else if backend == "memcached" then
    .ok (Store.memcached (filterKeys memcachedAllowedKeys kwargs))
  else if backend == "memory" then
    .ok (Store.memory (filterKeys memoryAllowedKeys kwargs))
  else if backend == "database" then
    .ok (Store.database (filterKeys databaseAllowedKeys kwargs))
  else if backend == "hybrid" then
    hybridBranch kwargs
  else
    .error ("Unknown backend: " ++ backend)

/-- `SessionStorage.__new__` (storage.py lines 144-158): the `backend`
parameter defaults to `"memory"`, and the call is forwarded to
`get_session_storage`.  An omitted argument is modelled as `Option.none`. -/
def SessionStorage.new (backend : Option String) (kwargs : Kwargs) : Except String Store :=
  get_session_storage (backend.getD "memory") kwargs

/-- The construction-time configuration an `AbstractSessionStorage` keeps
(storage.py lines 15-27): the key namespace (`self.prefix`, called `pfx`
here because the source's name is a reserved word in Lean) and the default
expiration in seconds (`self.expiration`). -/
structure AbstractSessionStorage where
  pfx : String
  expiration : Nat
deriving DecidableEq, Repr

/-- `AbstractSessionStorage.__init__` (lines 15-27): both parameters are
optional, defaulting to `"session:"` and `1800`; an omitted argument is
modelled as `Option.none`. -/
def AbstractSessionStorage.init (p : Option String) (e : Option Nat) :
    AbstractSessionStorage :=
  { pfx := p.getD "session:", expiration := e.getD 1800 }

/-- `AbstractSessionStorage.get_key` (lines 37-46):
the f-string `f"{self.prefix}{session_id}"`. -/
def AbstractSessionStorage.get_key (st : AbstractSessionStorage)
    (session_id : String) : String :=
  st.pfx ++ session_id

/-- Modelled from the spec: the concrete backend drivers (whose sources are
not in the tree) apply the store's construction-time default expiration
"whenever an operation omits an explicit override", i.e. the effective
expiration of an operation is its `expiration` argument when given, else
`self.expiration`. -/
def effectiveExpiration (st : AbstractSessionStorage) (override : Option Nat) : Nat :=
  override.getD st.expiration

/-- Lowercase hex digit for a nibble (used by `str(uuid4())`). -/
def hexChar (n : Nat) : Char :=
  if n < 10 then Char.ofNat (48 + n) else Char.ofNat (87 + n)

/-- The two lowercase hex digits of one byte (`"%02x"`); the high nibble is
masked to four bits, which is the identity on byte values. -/
def byteHex (b : Nat) : List Char :=
  [hexChar (b / 16 % 16), hexChar (b % 16)]

/-- `AbstractSessionStorage.generate_session_id` (lines 29-35) returns
`str(uuid4())`.  Modelled from the spec and the documented stdlib
behaviour of `uuid.uuid4` (an external collaborator): 16 random bytes,
with the version nibble of byte 6 forced to 4 (`& 0x0f | 0x40`) and the
two top bits of byte 8 forced to `10` (`& 0x3f | 0x80`), rendered as
lowercase hex in the canonical 8-4-4-4-12 hyphenated form.  The random
bytes are an explicit argument. -/
def generate_session_id (r : Fin 16 → Fin 256) : String :=
  String.mk
    (byteHex (r 0).val ++ byteHex (r 1).val ++ byteHex (r 2).val ++ byteHex (r 3).val ++
     ['-'] ++ byteHex (r 4).val ++ byteHex (r 5).val ++
     ['-'] ++ byteHex ((r 6).val % 16 + 64) ++ byteHex (r 7).val ++
     ['-'] ++ byteHex ((r 8).val % 64 + 128) ++ byteHex (r 9).val ++
     ['-'] ++ byteHex (r 10).val ++ byteHex (r 11).val ++ byteHex (r 12).val ++
     byteHex (r 13).val ++ byteHex (r 14).val ++ byteHex (r 15).val)

/-- Is this character a lowercase hex digit? -/
def isHexLowerChar (c : Char) : Bool :=
  (decide ('0' ≤ c) && decide (c ≤ '9')) || (decide ('a' ≤ c) && decide (c ≤ 'f'))

/-- Are all characters of the list lowercase hex digits? -/
def allHex (l : List Char) : Bool := l.all isHexLowerChar

/-- Consume exactly 8 lowercase hex digits, returning the remainder. -/
def hexGroup8 : List Char → Option (List Char)
  | c0 :: c1 :: c2 :: c3 :: c4 :: c5 :: c6 :: c7 :: rest =>
      if allHex [c0, c1, c2, c3, c4, c5, c6, c7] then some rest else Option.none
  | _ => Option.none

/-- Consume exactly 4 lowercase hex digits, returning the remainder. -/
def hexGroup4 : List Char → Option (List Char)
  | c0 :: c1 :: c2 :: c3 :: rest =>
      if allHex [c0, c1, c2, c3] then some rest else Option.none
  | _ => Option.none

/-- Consume exactly 3 lowercase hex digits, returning the remainder. -/
def hexGroup3 : List Char → Option (List Char)
  | c0 :: c1 :: c2 :: rest =>
      if allHex [c0, c1, c2] then some rest else Option.none
  | _ => Option.none

/-- Consume exactly 12 lowercase hex digits, returning the remainder. -/
def hexGroup12 : List Char → Option (List Char)
  | c0 :: c1 :: c2 :: c3 :: c4 :: c5 :: c6 :: c7 :: c8 :: c9 :: c10 :: c11 :: rest =>
      if allHex [c0, c1, c2, c3, c4, c5, c6, c7, c8, c9, c10, c11] then some rest
      else Option.none
  | _ => Option.none

/-- Does this string have the canonical form of a version-4 UUID:
five lowercase-hex groups of sizes 8-4-4-4-12 joined by single hyphens,
with version nibble `4` and a variant nibble in `8`, `9`, `a`, `b`? -/
def isCanonicalUuid4 (s : String) : Bool :=
  match hexGroup8 s.data with
  | some ('-' :: r1) =>
    match hexGroup4 r1 with
    | some ('-' :: r2) =>
      match r2 with
      | '4' :: r2a =>
        match hexGroup3 r2a with
        | some ('-' :: v :: r3) =>
          if v == '8' || v == '9' || v == 'a' || v == 'b' then
            match hexGroup3 r3 with
            | some ('-' :: r4) =>
              match hexGroup12 r4 with
              | some [] => true
              | _ => false
            | _ => false
          else false
        | _ => false
      | _ => false
    | _ => false
  | _ => false

/-- `has_redis_params` of the hybrid branch, as a function of the original
bag (the branch computes it on the bag with `db_config` already popped). -/
def hybridHasRedisParams (kwargs : Kwargs) : Bool :=
  ["db", "username", "password"].any (fun p => hasKey (eraseKey kwargs "db_config") p)

/-- `use_redis` of the hybrid branch, as a function of the original bag. -/
def hybridUseRedis (kwargs : Kwargs) : Bool :=
  hybridHasRedisParams kwargs ||
    ((lookupKey (eraseKey kwargs "db_config") "_cache_backend").getD
        (Value.str "redis")).eqStr "redis"

/-- The bag left over after the hybrid branch's pops: `db_config` always,
and `_cache_backend` only when the `or` computing `use_redis` did not
short-circuit. -/
def hybridResidualBag (kwargs : Kwargs) : Kwargs :=
  if hybridHasRedisParams kwargs then eraseKey kwargs "db_config"
  else eraseKey (eraseKey kwargs "db_config") "_cache_backend"

/-- The keyword arguments a constructed store received (for a hybrid store:
those passed to `HybridSessionStorage` itself). -/
def storeKwargs : Store → Kwargs
  | .redis kw => kw
  | .memcached kw => kw
  | .memory kw => kw
  | .database kw => kw
  | .hybrid _ _ hk => hk

/-- The keyword arguments the cache tier's constructor received. -/
def cacheTierKwargs : CacheTier → Kwargs
  | .redis kw => kw
  | .memcached kw => kw

/-- The allow-list of the driver class the cache tier was built from. -/
def cacheTierAllowedKeys : CacheTier → List String
  | .redis _ => redisAllowedKeys
  | .memcached _ => memcachedAllowedKeys

/-- The kwargs allow-list of the concrete driver behind each non-hybrid
backend name. -/
def allowedKeysFor : String → List String
  | "redis" => redisAllowedKeys
  | "memcached" => memcachedAllowedKeys
  | "memory" => memoryAllowedKeys
  | "database" => databaseAllowedKeys
  | _ => []

/-! ### Association-list lemmas -/

lemma lookupKey_eraseKey_ne (kw : Kwargs) (k k0 : String) (h : k ≠ k0) :
    lookupKey (eraseKey kw k0) k = lookupKey kw k := by
  induction kw with
  | nil => rfl
  | cons hd tl ih =>
    obtain ⟨k1, v1⟩ := hd
    by_cases h1 : k1 = k0
    · subst h1
      have hk : (k1 == k) = false := beq_eq_false_iff_ne.mpr (Ne.symm h)
      simp [eraseKey, lookupKey, hk]
    · by_cases h2 : k1 = k
      · subst h2
        simp [eraseKey, lookupKey, h1]
      · simp [eraseKey, lookupKey, h1, h2, ih]

lemma hasKey_eraseKey_ne (kw : Kwargs) (k k0 : String) (h : k ≠ k0) :
    hasKey (eraseKey kw k0) k = hasKey kw k := by
  simp [hasKey, lookupKey_eraseKey_ne kw k k0 h]

lemma mem_eraseKey_ne (kw : Kwargs) (k k0 : String) (v : Value) (h : k ≠ k0) :
    ((k, v) ∈ eraseKey kw k0) ↔ ((k, v) ∈ kw) := by
  induction kw with
  | nil => simp [eraseKey]
  | cons hd tl ih =>
    obtain ⟨k1, v1⟩ := hd
    by_cases h1 : k1 = k0
    · subst h1
      have he : eraseKey ((k1, v1) :: tl) k1 = tl := by simp [eraseKey]
      rw [he, List.mem_cons]
      constructor
      · exact Or.inr
      · rintro (hp | hm)
        · injection hp with e1 e2
          exact absurd e1 h
        · exact hm
    · simp [eraseKey, h1, List.mem_cons, ih]

lemma mem_filterKeys (allowed : List String) (kw : Kwargs) (k : String) (v : Value) :
    ((k, v) ∈ filterKeys allowed kw) ↔ ((k, v) ∈ kw ∧ k ∈ allowed) := by
  simp [filterKeys, List.mem_filter, List.elem_iff]

lemma lookupKey_filterKeys_not_mem (allowed : List String) (kw : Kwargs) (k : String)
    (h : k ∉ allowed) : lookupKey (filterKeys allowed kw) k = Option.none := by
  induction kw with
  | nil => rfl
  | cons hd tl ih =>
    obtain ⟨k1, v1⟩ := hd
    by_cases h1 : allowed.contains k1
    · have hne : (k1 == k) = false := by
        refine beq_eq_false_iff_ne.mpr ?_
        intro he
        exact h (he ▸ List.elem_iff.mp h1)
      have hf : filterKeys allowed ((k1, v1) :: tl) = (k1, v1) :: filterKeys allowed tl := by
        simp only [filterKeys, List.filter_cons, h1, if_true]
      rw [hf]
      simp only [lookupKey, hne, Bool.false_eq_true, if_false]
      exact ih
    · rw [Bool.not_eq_true] at h1
      have hf : filterKeys allowed ((k1, v1) :: tl) = filterKeys allowed tl := by
        simp only [filterKeys, List.filter_cons, h1, Bool.false_eq_true, if_false]
      rw [hf]
      exact ih

lemma lookupKey_append_none (l1 l2 : Kwargs) (k : String)
    (h : lookupKey l1 k = Option.none) :
    lookupKey (l1 ++ l2) k = lookupKey l2 k := by
  induction l1 with
  | nil => rfl
  | cons hd tl ih =>
    obtain ⟨k1, v1⟩ := hd
    by_cases h1 : k1 = k
    · subst h1
      simp [lookupKey] at h
    · simp only [List.cons_append, lookupKey, beq_iff_eq, h1, if_false] at h ⊢
      exact ih h

/-! ### Characterisation of the hybrid branch -/

lemma hybridBranch_eq_of_truthy (kwargs : Kwargs) (v : Value)
    (hv : lookupKey kwargs "db_config" = some v) (ht : v.truthy = true) :
    hybridBranch kwargs =
      Except.ok (Store.hybrid
        (if hybridUseRedis kwargs then
          CacheTier.redis (filterKeys redisAllowedKeys (hybridResidualBag kwargs))
        else
          CacheTier.memcached (filterKeys memcachedAllowedKeys (hybridResidualBag kwargs)))
        (filterKeys ["prefix", "expiration"] (hybridResidualBag kwargs) ++ [("db_config", v)])
        (filterKeys ["prefix", "expiration"] (hybridResidualBag kwargs))) := by
  unfold hybridBranch hybridUseRedis hybridResidualBag hybridHasRedisParams
  rw [hv]
  simp only [Option.getD_some, ht, Bool.not_true, Bool.false_eq_true, if_false]

lemma hybridBranch_error_of_not_truthy (kwargs : Kwargs)
    (h : ((lookupKey kwargs "db_config").getD Value.none).truthy = false) :
    hybridBranch kwargs = Except.error "db_config is required for hybrid backend" := by
  unfold hybridBranch
  simp only [h, Bool.not_false, if_true]

lemma get_session_storage_hybrid (kwargs : Kwargs) :
    get_session_storage "hybrid" kwargs = hybridBranch kwargs := rfl

/-! ### Hex-rendering lemmas -/

lemma hexChar_fin16_hex : ∀ i : Fin 16, isHexLowerChar (hexChar i.val) = true := by
  decide

lemma isHexLowerChar_hexChar_mod (x : Nat) :
    isHexLowerChar (hexChar (x % 16)) = true :=
  hexChar_fin16_hex ⟨x % 16, Nat.mod_lt _ (by norm_num)⟩

/-! ### Cache-tier selection lemmas -/

lemma hybridHasRedisParams_spec (kwargs : Kwargs) :
    hybridHasRedisParams kwargs =
      (hasKey kwargs "db" || hasKey kwargs "username" || hasKey kwargs "password") := by
  simp only [hybridHasRedisParams, List.any_cons, List.any_nil, Bool.or_false,
    hasKey_eraseKey_ne kwargs "db" "db_config" (by decide),
    hasKey_eraseKey_ne kwargs "username" "db_config" (by decide),
    hasKey_eraseKey_ne kwargs "password" "db_config" (by decide), Bool.or_assoc]

lemma hybridUseRedis_spec (kwargs : Kwargs) :
    hybridUseRedis kwargs =
      (hasKey kwargs "db" || hasKey kwargs "username" || hasKey kwargs "password" ||
        (match lookupKey kwargs "_cache_backend" with
          | Option.none => true
          | some w => w.eqStr "redis")) := by
  unfold hybridUseRedis
  rw [hybridHasRedisParams_spec,
    lookupKey_eraseKey_ne kwargs "_cache_backend" "db_config" (by decide)]
  cases hx : lookupKey kwargs "_cache_backend" with
  | none => simp [Value.eqStr, Bool.or_assoc]
  | some w => simp [Bool.or_assoc]

lemma mem_redisAllowed_ne (k : String) (h : k ∈ redisAllowedKeys) :
    k ≠ "db_config" ∧ k ≠ "_cache_backend" := by
  simp only [redisAllowedKeys, List.mem_cons, List.not_mem_nil, or_false] at h
  rcases h with rfl | rfl | rfl | rfl | rfl | rfl | rfl | rfl | rfl <;>
    exact ⟨by decide, by decide⟩

lemma mem_memcachedAllowed_ne (k : String) (h : k ∈ memcachedAllowedKeys) :
    k ≠ "db_config" ∧ k ≠ "_cache_backend" := by
  simp only [memcachedAllowedKeys, List.mem_cons, List.not_mem_nil, or_false] at h
  rcases h with rfl | rfl | rfl | rfl | rfl <;> exact ⟨by decide, by decide⟩

lemma mem_residualBag_iff (kwargs : Kwargs) (k : String) (v : Value)
    (h1 : k ≠ "db_config") (h2 : k ≠ "_cache_backend") :
    ((k, v) ∈ hybridResidualBag kwargs) ↔ ((k, v) ∈ kwargs) := by
  unfold hybridResidualBag
  cases hrp : hybridHasRedisParams kwargs with
  | true =>
    simp only [if_true]
    exact mem_eraseKey_ne kwargs k "db_config" v h1
  | false =>
    simp only [Bool.false_eq_true, if_false]
    rw [mem_eraseKey_ne _ k "_cache_backend" v h2, mem_eraseKey_ne _ k "db_config" v h1]

/-! ### The claims -/

/-- Claim C1: for the hybrid backend, every call of `get_session_storage`
whose keyword arguments lack a `db_config` entry raises the configuration
`ValueError` at construction time and constructs no driver. -/
theorem claim1_hybrid_requires_db_config (kwargs : Kwargs)
    (h : hasKey kwargs "db_config" = false) :
    get_session_storage "hybrid" kwargs =
      Except.error "db_config is required for hybrid backend" := by
  rw [get_session_storage_hybrid]
  apply hybridBranch_error_of_not_truthy
  have hl : lookupKey kwargs "db_config" = Option.none := by
    cases hx : lookupKey kwargs "db_config" with
    | none => rfl
    | some v => rw [hasKey, hx] at h; simp at h
  rw [hl]
  rfl

/-- Witness for C1 at a concrete bag with no `db_config` entry. -/
theorem claim1_witness :
    hasKey [("host", Value.str "localhost")] "db_config" = false ∧
    get_session_storage "hybrid" [("host", Value.str "localhost")] =
      Except.error "db_config is required for hybrid backend" :=
  ⟨rfl, claim1_hybrid_requires_db_config [("host", Value.str "localhost")] rfl⟩

/-- Counterexample to C2 as stated: `"hybrid"` is one of the five backend
names, yet the call with an empty configuration bag does not return a store
(it raises the missing-`db_config` error instead). -/
theorem claim2_counterexample :
    "hybrid" ∈ (["redis", "memcached", "memory", "database", "hybrid"] : List String) ∧
    (get_session_storage "hybrid" ([] : Kwargs)).isOk = false := by
  constructor
  · decide
  · rfl

/-- Claim C2 (amended): `get_session_storage` returns a store exactly when
the backend name is one of `"redis"`, `"memcached"`, `"memory"`,
`"database"`, `"hybrid"` and, for `"hybrid"`, the bag holds a truthy
`db_config` entry; for every other backend string it raises a `ValueError`
naming the backend and constructs nothing. -/
theorem claim2_backend_dispatch (backend : String) (kwargs : Kwargs) :
    ((get_session_storage backend kwargs).isOk = true ↔
      (backend ∈ (["redis", "memcached", "memory", "database", "hybrid"] : List String) ∧
        (backend = "hybrid" →
          ((lookupKey kwargs "db_config").getD Value.none).truthy = true))) ∧
    (backend ∉ (["redis", "memcached", "memory", "database", "hybrid"] : List String) →
      get_session_storage backend kwargs = Except.error ("Unknown backend: " ++ backend)) := by
  by_cases h1 : backend = "redis"
  · subst h1; simp [get_session_storage, Except.isOk, Except.toBool]
  · by_cases h2 : backend = "memcached"
    · subst h2; simp [get_session_storage, Except.isOk, Except.toBool]
    · by_cases h3 : backend = "memory"
      · subst h3; simp [get_session_storage, Except.isOk, Except.toBool]
      · by_cases h4 : backend = "database"
        · subst h4; simp [get_session_storage, Except.isOk, Except.toBool]
        · by_cases h5 : backend = "hybrid"
          · subst h5
            constructor
            · cases hx : lookupKey kwargs "db_config" with
              | none =>
                rw [get_session_storage_hybrid,
                  hybridBranch_error_of_not_truthy kwargs (by rw [hx]; rfl)]
                simp [Except.isOk, Except.toBool, hx, Value.truthy]
              | some v =>
                cases htr : v.truthy with
                | false =>
                  rw [get_session_storage_hybrid,
                    hybridBranch_error_of_not_truthy kwargs (by rw [hx]; simpa using htr)]
                  simp [Except.isOk, Except.toBool, hx, htr]
                | true =>
                  rw [get_session_storage_hybrid, hybridBranch_eq_of_truthy kwargs v hx htr]
                  simp [Except.isOk, Except.toBool, hx, htr]
            · intro hnot
              exact absurd (by decide) hnot
          · have hbeq1 : (backend == "redis") = false := beq_eq_false_iff_ne.mpr h1
            have hbeq2 : (backend == "memcached") = false := beq_eq_false_iff_ne.mpr h2
            have hbeq3 : (backend == "memory") = false := beq_eq_false_iff_ne.mpr h3
            have hbeq4 : (backend == "database") = false := beq_eq_false_iff_ne.mpr h4
            have hbeq5 : (backend == "hybrid") = false := beq_eq_false_iff_ne.mpr h5
            constructor
            · simp [get_session_storage, hbeq1, hbeq2, hbeq3, hbeq4, hbeq5,
                Except.isOk, Except.toBool, h1, h2, h3, h4, h5]
            · intro _
              simp [get_session_storage, hbeq1, hbeq2, hbeq3, hbeq4, hbeq5]

/-- Witness for C2 at a concrete unknown backend name. -/
theorem claim2_witness :
    get_session_storage "postgres" ([] : Kwargs) =
      Except.error ("Unknown backend: " ++ "postgres") :=
  (claim2_backend_dispatch "postgres" []).2 (by decide)

/-- Claim C3: every successful hybrid construction yields a
`HybridSessionStorage` composed of exactly one cache driver (Redis or
Memcached) and one `DatabaseSessionStorage` whose kwargs carry the
mandatory `db_config`. -/
theorem claim3_hybrid_composition (kwargs : Kwargs) (s : Store)
    (h : get_session_storage "hybrid" kwargs = Except.ok s) :
    ∃ (cache : CacheTier) (dbKwargs hybridKwargs : Kwargs) (v : Value),
      s = Store.hybrid cache dbKwargs hybridKwargs ∧
      lookupKey kwargs "db_config" = some v ∧ v.truthy = true ∧
      lookupKey dbKwargs "db_config" = some v ∧
      ((∃ ckw, cache = CacheTier.redis ckw) ∨ (∃ ckw, cache = CacheTier.memcached ckw)) := by
  rw [get_session_storage_hybrid] at h
  cases hx : lookupKey kwargs "db_config" with
  | none =>
    rw [hybridBranch_error_of_not_truthy kwargs (by rw [hx]; rfl)] at h
    exact absurd h (by simp)
  | some v =>
    cases htr : v.truthy with
    | false =>
      rw [hybridBranch_error_of_not_truthy kwargs (by rw [hx]; simpa using htr)] at h
      exact absurd h (by simp)
    | true =>
      rw [hybridBranch_eq_of_truthy kwargs v hx htr] at h
      injection h with h
      refine ⟨_, _, _, v, h.symm, rfl, htr, ?_, ?_⟩
      · rw [lookupKey_append_none _ _ _ (lookupKey_filterKeys_not_mem _ _ _ (by decide))]
        rfl
      · cases hur : hybridUseRedis kwargs with
        | true =>
          left
          simp
        | false =>
          right
          simp

/-- Witness for C3 at a concrete bag holding only `db_config`. -/
theorem claim3_witness :
    ∃ (cache : CacheTier) (dbKwargs hybridKwargs : Kwargs) (v : Value),
      Store.hybrid (CacheTier.redis []) [("db_config", Value.str "cfg")] [] =
        Store.hybrid cache dbKwargs hybridKwargs ∧
      lookupKey [("db_config", Value.str "cfg")] "db_config" = some v ∧ v.truthy = true ∧
      lookupKey dbKwargs "db_config" = some v ∧
      ((∃ ckw, cache = CacheTier.redis ckw) ∨ (∃ ckw, cache = CacheTier.memcached ckw)) :=
  claim3_hybrid_composition [("db_config", Value.str "cfg")]
    (Store.hybrid (CacheTier.redis []) [("db_config", Value.str "cfg")] []) rfl

/-- Claim C4: in a successful hybrid construction the cache tier is Redis
exactly when one of the keys `db`, `username`, `password` is present in the
bag, or the `_cache_backend` option is absent or equals `"redis"`;
otherwise it is Memcached (so the selection defaults to Redis). -/
theorem claim4_cache_tier_selection (kwargs : Kwargs) (cache : CacheTier) (dbk hk : Kwargs)
    (h : get_session_storage "hybrid" kwargs = Except.ok (Store.hybrid cache dbk hk)) :
    ((∃ ckw, cache = CacheTier.redis ckw) ↔
      (hasKey kwargs "db" || hasKey kwargs "username" || hasKey kwargs "password" ||
        (match lookupKey kwargs "_cache_backend" with
          | Option.none => true
          | some w => w.eqStr "redis")) = true) := by
  rw [← hybridUseRedis_spec]
  rw [get_session_storage_hybrid] at h
  cases hx : lookupKey kwargs "db_config" with
  | none =>
    rw [hybridBranch_error_of_not_truthy kwargs (by rw [hx]; rfl)] at h
    exact absurd h (by simp)
  | some v =>
    cases htr : v.truthy with
    | false =>
      rw [hybridBranch_error_of_not_truthy kwargs (by rw [hx]; simpa using htr)] at h
      exact absurd h (by simp)
    | true =>
      rw [hybridBranch_eq_of_truthy kwargs v hx htr] at h
      injection h with h
      injection h with hcache hdb hhk
      cases hur : hybridUseRedis kwargs with
      | true =>
        rw [hur] at hcache
        simp only [if_true] at hcache
        simp [← hcache]
      | false =>
        rw [hur] at hcache
        simp only [Bool.false_eq_true, if_false] at hcache
        simp [← hcache]

/-- Witness for C4 at a concrete bag in the ambiguous case (no cache keys,
no `_cache_backend`): Redis is selected. -/
theorem claim4_witness :
    (∃ ckw, CacheTier.redis [] = CacheTier.redis ckw) ↔
      (hasKey [("db_config", Value.str "cfg")] "db" ||
        hasKey [("db_config", Value.str "cfg")] "username" ||
        hasKey [("db_config", Value.str "cfg")] "password" ||
        (match lookupKey [("db_config", Value.str "cfg")] "_cache_backend" with
          | Option.none => true
          | some w => w.eqStr "redis")) = true :=
  claim4_cache_tier_selection [("db_config", Value.str "cfg")] (CacheTier.redis [])
    [("db_config", Value.str "cfg")] [] rfl

/-- Claim C9 (implicit): any of the Redis-specific keys `db`, `username`,
`password` forces the Redis cache tier even when `_cache_backend` is set to
another value; and, with no Redis-specific key present, any
`_cache_backend` value other than the exact string `"redis"` selects the
Memcached cache tier. -/
theorem claim9_redis_keys_override (kwargs : Kwargs) (cache : CacheTier) (dbk hk : Kwargs)
    (h : get_session_storage "hybrid" kwargs = Except.ok (Store.hybrid cache dbk hk)) :
    ((hasKey kwargs "db" || hasKey kwargs "username" || hasKey kwargs "password") = true →
      ∃ ckw, cache = CacheTier.redis ckw) ∧
    ((hasKey kwargs "db" || hasKey kwargs "username" || hasKey kwargs "password") = false →
      ∀ w, lookupKey kwargs "_cache_backend" = some w → w.eqStr "redis" = false →
        ∃ ckw, cache = CacheTier.memcached ckw) := by
  rw [get_session_storage_hybrid] at h
  cases hx : lookupKey kwargs "db_config" with
  | none =>
    rw [hybridBranch_error_of_not_truthy kwargs (by rw [hx]; rfl)] at h
    exact absurd h (by simp)
  | some v =>
    cases htr : v.truthy with
    | false =>
      rw [hybridBranch_error_of_not_truthy kwargs (by rw [hx]; simpa using htr)] at h
      exact absurd h (by simp)
    | true =>
      rw [hybridBranch_eq_of_truthy kwargs v hx htr] at h
      injection h with h
      injection h with hcache hdb hhk
      constructor
      · intro hkeys
        have hur : hybridUseRedis kwargs = true := by
          rw [hybridUseRedis_spec, hkeys]
          rfl
        rw [hur] at hcache
        simp only [if_true] at hcache
        exact ⟨_, hcache.symm⟩
      · intro hkeys w hw hwr
        have hur : hybridUseRedis kwargs = false := by
          rw [hybridUseRedis_spec, hkeys, hw]
          simpa using hwr
        rw [hur] at hcache
        simp only [Bool.false_eq_true, if_false] at hcache
        exact ⟨_, hcache.symm⟩

/-- Witness for C9: a bag with the Redis-specific key `db` and
`_cache_backend` explicitly set to `"memcached"` still gets Redis. -/
theorem claim9_witness :
    ∃ ckw, CacheTier.redis [("db", Value.int 0)] = CacheTier.redis ckw :=
  (claim9_redis_keys_override
    [("db_config", Value.str "cfg"), ("db", Value.int 0),
      ("_cache_backend", Value.str "memcached")]
    (CacheTier.redis [("db", Value.int 0)]) [("db_config", Value.str "cfg")] [] rfl).1 rfl

/-- Claim C5: for each non-hybrid backend the driver's constructor receives
exactly the entries of the bag whose keys are in that backend's allow-list,
and unknown keys are dropped without error; likewise for the cache tier of
a successful hybrid construction. -/
theorem claim5_allow_list_filtering :
    (∀ backend kwargs,
      backend ∈ (["redis", "memcached", "memory", "database"] : List String) →
      ∃ s, get_session_storage backend kwargs = Except.ok s ∧
        ∀ k v, ((k, v) ∈ storeKwargs s ↔ ((k, v) ∈ kwargs ∧ k ∈ allowedKeysFor backend))) ∧
    (∀ kwargs cache dbk hk,
      get_session_storage "hybrid" kwargs = Except.ok (Store.hybrid cache dbk hk) →
      ∀ k v, ((k, v) ∈ cacheTierKwargs cache ↔
        ((k, v) ∈ kwargs ∧ k ∈ cacheTierAllowedKeys cache))) := by
  constructor
  · intro backend kwargs hb
    fin_cases hb
    · exact ⟨Store.redis (filterKeys redisAllowedKeys kwargs), rfl,
        fun k v => mem_filterKeys _ _ _ _⟩
    · exact ⟨Store.memcached (filterKeys memcachedAllowedKeys kwargs), rfl,
        fun k v => mem_filterKeys _ _ _ _⟩
    · exact ⟨Store.memory (filterKeys memoryAllowedKeys kwargs), rfl,
        fun k v => mem_filterKeys _ _ _ _⟩
    · exact ⟨Store.database (filterKeys databaseAllowedKeys kwargs), rfl,
        fun k v => mem_filterKeys _ _ _ _⟩
  · intro kwargs cache dbk hk h k v
    rw [get_session_storage_hybrid] at h
    cases hx : lookupKey kwargs "db_config" with
    | none =>
      rw [hybridBranch_error_of_not_truthy kwargs (by rw [hx]; rfl)] at h
      exact absurd h (by simp)
    | some w =>
      cases htr : w.truthy with
      | false =>
        rw [hybridBranch_error_of_not_truthy kwargs (by rw [hx]; simpa using htr)] at h
        exact absurd h (by simp)
      | true =>
        rw [hybridBranch_eq_of_truthy kwargs w hx htr] at h
        injection h with h
        injection h with hcache hdb hhk
        cases hur : hybridUseRedis kwargs with
        | true =>
          rw [hur] at hcache
          simp only [if_true] at hcache
          rw [← hcache]
          simp only [cacheTierKwargs, cacheTierAllowedKeys]
          rw [mem_filterKeys]
          constructor
          · rintro ⟨hmb, hka⟩
            obtain ⟨hne1, hne2⟩ := mem_redisAllowed_ne k hka
            exact ⟨(mem_residualBag_iff kwargs k v hne1 hne2).mp hmb, hka⟩
          · rintro ⟨hmk, hka⟩
            obtain ⟨hne1, hne2⟩ := mem_redisAllowed_ne k hka
            exact ⟨(mem_residualBag_iff kwargs k v hne1 hne2).mpr hmk, hka⟩
        | false =>
          rw [hur] at hcache
          simp only [Bool.false_eq_true, if_false] at hcache
          rw [← hcache]
          simp only [cacheTierKwargs, cacheTierAllowedKeys]
          rw [mem_filterKeys]
          constructor
          · rintro ⟨hmb, hka⟩
            obtain ⟨hne1, hne2⟩ := mem_memcachedAllowed_ne k hka
            exact ⟨(mem_residualBag_iff kwargs k v hne1 hne2).mp hmb, hka⟩
          · rintro ⟨hmk, hka⟩
            obtain ⟨hne1, hne2⟩ := mem_memcachedAllowed_ne k hka
            exact ⟨(mem_residualBag_iff kwargs k v hne1 hne2).mpr hmk, hka⟩

/-- Witness for C5: the memory backend at a bag holding one irrelevant key
(`host`, dropped without error) and one relevant key (kept). -/
theorem claim5_witness :
    ∃ s, get_session_storage "memory"
        [("host", Value.str "h"), ("prefix", Value.str "p:")] = Except.ok s ∧
      ∀ k v, ((k, v) ∈ storeKwargs s ↔
        ((k, v) ∈ ([("host", Value.str "h"), ("prefix", Value.str "p:")] : Kwargs) ∧
          k ∈ allowedKeysFor "memory")) :=
  claim5_allow_list_filtering.1 "memory"
    [("host", Value.str "h"), ("prefix", Value.str "p:")] (by decide)

/-- Claim C6: for every prefix `p` and session id `s`, `get_key` returns
exactly the concatenation `p ++ s`, and for a fixed prefix distinct ids
give distinct keys. -/
theorem claim6_get_key_is_concat (p sid sid2 : String) (e : Nat) :
    AbstractSessionStorage.get_key ⟨p, e⟩ sid = p ++ sid ∧
    (AbstractSessionStorage.get_key ⟨p, e⟩ sid = AbstractSessionStorage.get_key ⟨p, e⟩ sid2 →
      sid = sid2) := by
  refine ⟨rfl, fun h => ?_⟩
  have hd : (p ++ sid).data = (p ++ sid2).data := congrArg String.data h
  rw [String.data_append, String.data_append] at hd
  exact String.ext (List.append_cancel_left hd)

/-- Witness for C6 at the default prefix and a concrete session id. -/
theorem claim6_witness :
    AbstractSessionStorage.get_key ⟨"session:", 1800⟩ "abc" = "session:" ++ "abc" ∧
    (AbstractSessionStorage.get_key ⟨"session:", 1800⟩ "abc" =
        AbstractSessionStorage.get_key ⟨"session:", 1800⟩ "abc" → "abc" = "abc") :=
  claim6_get_key_is_concat "session:" "abc" "abc" 1800

/-- Claim C7: a store constructed without explicit options has prefix
`"session:"` and default expiration `1800`, both construction-time values,
and the stored default is the expiration applied whenever an operation
omits an explicit override. -/
theorem claim7_construction_defaults :
    (AbstractSessionStorage.init Option.none Option.none).pfx = "session:" ∧
    (AbstractSessionStorage.init Option.none Option.none).expiration = 1800 ∧
    (∀ st : AbstractSessionStorage, effectiveExpiration st Option.none = st.expiration) ∧
    (∀ st : AbstractSessionStorage, ∀ n : Nat, effectiveExpiration st (some n) = n) :=
  ⟨rfl, rfl, fun _ => rfl, fun _ _ => rfl⟩

/-- Claim C8: for every choice of random bytes, `generate_session_id`
returns the canonical string rendering of a version-4 UUID. -/
theorem claim8_uuid_format (r : Fin 16 → Fin 256) :
    isCanonicalUuid4 (generate_session_id r) = true := by
  have hver : ((r 6).val % 16 + 64) / 16 % 16 = 4 := by omega
  have hvar : ((r 8).val % 64 + 128) / 16 % 16 = 8 ∨ ((r 8).val % 64 + 128) / 16 % 16 = 9 ∨
      ((r 8).val % 64 + 128) / 16 % 16 = 10 ∨ ((r 8).val % 64 + 128) / 16 % 16 = 11 := by
    omega
  unfold generate_session_id
  simp only [byteHex, List.cons_append, List.nil_append, List.append_assoc]
  rw [hver]
  rcases hvar with h8 | h8 | h8 | h8 <;> rw [h8] <;>
    simp [isCanonicalUuid4, hexGroup8, hexGroup4, hexGroup3, hexGroup12, allHex,
      isHexLowerChar_hexChar_mod,
      show hexChar 4 = '4' from by decide, show hexChar 8 = '8' from by decide,
      show hexChar 9 = '9' from by decide, show hexChar 10 = 'a' from by decide,
      show hexChar 11 = 'b' from by decide]

/-- Claim C10 (implicit): `SessionStorage` without a backend argument
defaults to the in-memory backend and yields the very store that
`get_session_storage "memory"` builds. -/
theorem claim10_default_backend_is_memory (kwargs : Kwargs) :
    SessionStorage.new Option.none kwargs = get_session_storage "memory" kwargs ∧
    SessionStorage.new Option.none kwargs =
      Except.ok (Store.memory (filterKeys memoryAllowedKeys kwargs)) :=
  ⟨rfl, rfl⟩

end CrudAdmin
